import Mathlib

/-! Verification of the transactional student/membership subsystem of a
library-management backend (source: `src/Backend/routes/students.js`).

The JavaScript route handlers are shallowly embedded as pure Lean functions
over an explicit relational state (`DB`).  Each handler is split into a
decision stage, which mirrors the JS control flow (validation branches,
early returns), and an interpretation stage, which applies the SQL effects
and records the trace of database-driver calls (`DbCall`) the handler
issues.  JavaScript numbers are idealised as rationals (IEEE-754 rounding
is not modelled); `parseFloat` returning `NaN` is modelled as `none`. -/

namespace DemoLib

/-- Model of a JavaScript request-body value for the loosely typed fields:
`undefined`, `null`, a finite number (as a rational), `NaN`, or a string. -/
inductive JVal where
  | undef
  | null
  | num (q : ℚ)
  | nan
  | str (s : String)
deriving DecidableEq

/-- JavaScript truthiness: `undefined`, `null`, `NaN`, `0` and the empty
string are falsy, every other modelled value is truthy. -/
def truthy : JVal → Bool
  | .undef => false
  | .null => false
  | .nan => false
  | .num q => q != 0
  | .str s => s != ""

/-- The JavaScript `a || b` operator on modelled values. -/
def jsOr (a b : JVal) : JVal := if truthy a then a else b

/-- Value of a list of decimal digit characters. -/
def natOfDigits (cs : List Char) : Nat :=
  cs.foldl (fun acc c => acc * 10 + (c.toNat - 48)) 0

/-- Model of `parseFloat` applied to a string: an optional sign, an integer
part and an optional fraction part parse to the denoted rational; anything
else yields `NaN` (`none`).  JavaScript's longest-numeric-prefix behaviour
for trailing garbage is not modelled; no claim depends on it. -/
def parseFloatStr (s : String) : Option ℚ :=
  let cs := s.data
  let signRest : ℚ × List Char :=
    match cs with
    | '-' :: rest => (-1, rest)
    | '+' :: rest => (1, rest)
    | _ => (1, cs)
  let intPart := signRest.2.takeWhile (fun c => c.isDigit)
  let rest1 := signRest.2.dropWhile (fun c => c.isDigit)
  match rest1 with
  | [] =>
    if intPart.isEmpty then none
    else some (signRest.1 * (natOfDigits intPart : ℚ))
  | '.' :: fracCs =>
    let fracPart := fracCs.takeWhile (fun c => c.isDigit)
    let rest2 := fracCs.dropWhile (fun c => c.isDigit)
    if rest2.isEmpty && (!intPart.isEmpty || !fracPart.isEmpty) then
      some (signRest.1 *
        ((natOfDigits intPart : ℚ) + (natOfDigits fracPart : ℚ) / ((10 : ℚ) ^ fracPart.length)))
    else none
  | _ => none

/-- Model of `parseFloat`: numbers pass through, `NaN`, `undefined` and
`null` give `NaN` (`none`), strings are parsed. -/
def parseFloat : JVal → Option ℚ
  | .num q => some q
  | .nan => none
  | .undef => none
  | .null => none
  | .str s => parseFloatStr s

/-- The update route treats a monetary field as supplied exactly when it is
`!== undefined && !== null && !== ''` (students.js lines 469-483). -/
def specified : JVal → Bool
  | .undef => false
  | .null => false
  | .str s => s != ""
  | .num _ => true
  | .nan => true

/-- Falsiness of an optional string field (`!name` checks): absent or empty. -/
def strFalsy : Option String → Bool
  | none => true
  | some s => s == ""

/-- Truthiness of an optional integer field (`!branch_id` checks): present
and non-zero. -/
def intTruthy : Option Int → Bool
  | some b => b != 0
  | none => false

/-- Truthiness of the computed `seatIdNum` (`seatIdNum && ...` guards):
present and non-zero. -/
def seatTruthy : Option Nat → Bool
  | some n => n != 0
  | none => false

/-- `branch_id ? parseInt(branch_id, 10) : null` — a falsy (zero/absent)
branch id becomes `null`. -/
def branchIdNumOf : Option Int → Option Int
  | some b => if b == 0 then none else some b
  | none => none

/-- `x || null` on an optional string: empty or absent collapses to null. -/
def orNullStr : Option String → Option String
  | some s => if s == "" then none else some s
  | none => none

/-- SQL `COALESCE(a, b)` for nullable strings. -/
def coalesceStr (a b : Option String) : Option String :=
  match a with
  | some s => some s
  | none => b

/-- A row of the `students` table.  Monetary columns are rationals; date
columns are day numbers; `status` is the persisted text column. -/
structure StudentRow where
  id : Nat
  name : String
  email : Option String
  phone : Option String
  address : Option String
  branch_id : Int
  membership_start : Int
  membership_end : Int
  total_fee : ℚ
  amount_paid : ℚ
  due_amount : ℚ
  cash : ℚ
  online : ℚ
  security_money : ℚ
  remark : Option String
  profile_image_url : Option String
  status : String
deriving DecidableEq

/-- A row of the `seat_assignments` junction table. -/
structure SeatAssignment where
  seat_id : Nat
  shift_id : Nat
  student_id : Nat
deriving DecidableEq

/-- A row of the `student_membership_history` table. -/
structure HistoryRow where
  id : Nat
  student_id : Nat
  name : String
  email : Option String
  phone : Option String
  address : Option String
  membership_start : Int
  membership_end : Int
  status : String
  total_fee : ℚ
  amount_paid : ℚ
  due_amount : ℚ
  cash : ℚ
  online : ℚ
  security_money : ℚ
  remark : String
  seat_id : Option Nat
  shift_id : Option Nat
  branch_id : Option Int
  changed_at : ℚ
deriving DecidableEq

/-- The database state: the tables the students route touches, plus the
next serial ids.  `seats` and `schedules` are only consulted through
`SELECT 1 ... WHERE id = $1`, so just their id sets are kept. -/
structure DB where
  students : List StudentRow
  seats : List Nat
  schedules : List Nat
  seat_assignments : List SeatAssignment
  history : List HistoryRow
  nextStudentId : Nat
  nextHistoryId : Nat
deriving DecidableEq

/-- Tags identifying the SQL statements the route issues. -/
inductive SqlTag where
  | selectSeats
  | selectSchedules
  | selectAssignments
  | selectStudents
  | insertStudents
  | updateStudents
  | deleteAssignments
  | insertAssignment
  | selectHistory
  | insertHistory
  | updateHistory
  | deleteHistory
  | deleteStudents
deriving DecidableEq

/-- One call into the database driver: acquiring a dedicated connection
from the pool, the transaction control statements, releasing the
connection, or a plain query (on the dedicated connection or the pool). -/
inductive DbCall where
  | poolConnect
  | txBegin
  | txCommit
  | txRollback
  | release
  | query (tag : SqlTag)
deriving DecidableEq

/-- Whether a driver call is a plain query (no connection/transaction
management). -/
def DbCall.isQuery : DbCall → Bool
  | .query _ => true
  | _ => false

/-- An HTTP response: success with the returned student row, or an error
status with its message. -/
inductive Resp where
  | ok (code : Nat) (student : StudentRow)
  | err (code : Nat) (msg : String)
deriving DecidableEq

/-- Whether a response is a success response. -/
def Resp.isOk : Resp → Bool
  | .ok _ _ => true
  | .err _ _ => false

/-- Result of running one route handler: the database afterwards, the HTTP
response, and the trace of driver calls issued. -/
structure HResult where
  db : DB
  resp : Resp
  calls : List DbCall
deriving DecidableEq

/-- A failing run of a handler that wraps its work in a transaction on a
dedicated connection: BEGIN after connect, explicit ROLLBACK before
responding, release in the final step; the state is unchanged. -/
def txnFail (db : DB) (code : Nat) (msg : String) (mid : List DbCall) : HResult :=
  { db := db, resp := .err code msg,
    calls := DbCall.poolConnect :: DbCall.txBegin ::
      (mid ++ [DbCall.txRollback, DbCall.release]) }

/-- A successful run of a transactional handler: COMMIT then release. -/
def txnOk (db : DB) (code : Nat) (st : StudentRow) (mid : List DbCall) : HResult :=
  { db := db, resp := .ok code st,
    calls := DbCall.poolConnect :: DbCall.txBegin ::
      (mid ++ [DbCall.txCommit, DbCall.release]) }

/-- A failing run of a handler that works directly on the pool: no
connection management, no transaction statements. -/
def bareFail (db : DB) (code : Nat) (msg : String) (t : List DbCall) : HResult :=
  { db := db, resp := .err code msg, calls := t }

/-- `SELECT 1 FROM seat_assignments WHERE seat_id = $1 AND shift_id = $2`
returns a row (create-path conflict check, lines 343-353). -/
def assignExists (db : DB) (seatId shiftId : Nat) : Bool :=
  db.seat_assignments.any (fun a => a.seat_id == seatId && a.shift_id == shiftId)

/-- `SELECT 1 FROM seat_assignments WHERE seat_id = $1 AND shift_id = $2
AND student_id != $3` returns a row (update/renew conflict check). -/
def assignExistsOther (db : DB) (seatId shiftId excludeId : Nat) : Bool :=
  db.seat_assignments.any
    (fun a => a.seat_id == seatId && a.shift_id == shiftId && a.student_id != excludeId)

/-- A `for ... of` loop issuing one check query per element and returning
early at the first element failing the check: yields the trace of queries
issued and the first offender, if any. -/
def checkLoopTrace (ok : Nat → Bool) (tag : SqlTag) : List Nat → List DbCall × Option Nat
  | [] => ([], none)
  | x :: rest =>
    if ok x then
      let r := checkLoopTrace ok tag rest
      (DbCall.query tag :: r.1, r.2)
    else ([DbCall.query tag], some x)

/-- The `firstShiftId` accumulation: `if (!firstShiftId) firstShiftId =
shiftId` inside the insert loop (falsy `null` or `0` gets overwritten). -/
def firstShiftIdOf (shifts : List Nat) : Option Nat :=
  shifts.foldl (fun acc s => if acc == none || acc == some 0 then some s else acc) none

/-- `ORDER BY changed_at DESC LIMIT 1` over a list of history rows: the row
with the greatest `changed_at` (the earliest such row on ties, as a
deterministic model of the unspecified SQL tie order). -/
def latestHistoryRow : List HistoryRow → Option HistoryRow
  | [] => none
  | r :: rest =>
    match latestHistoryRow rest with
    | none => some r
    | some b => if b.changed_at > r.changed_at then some b else some r

/-- Write-time status derivation (create line 356, update line 542):
`new Date(membership_end) < new Date() ? 'expired' : 'active'`.  The date
string parses to UTC midnight of its day, so the comparison is midnight of
`membershipEnd` against the current instant `now` (in fractional days). -/
def writeTimeStatus (membershipEnd : Int) (now : ℚ) : String :=
  if (membershipEnd : ℚ) < now then "expired" else "active"

/-- Read-time status derivation (`withCalculatedStatus`, lines 6-14):
`CASE WHEN s.membership_end < CURRENT_DATE THEN 'expired' ELSE 'active'`,
a whole-day comparison. -/
def readTimeStatus (membershipEnd : Int) (currentDate : Int) : String :=
  if membershipEnd < currentDate then "expired" else "active"

/-- Error message of the create-route required-field validation. -/
def reqMsgCreate : String :=
  "Required fields missing (name, branch_id, membership_start, membership_end)"

/-- Error message of the update-route required-field validation. -/
def reqMsgUpdate : String :=
  "Required fields missing (name, email, phone, address, branch_id, membership_start, membership_end)"

/-- Error message of the renew-route required-field validation. -/
def renewReqMsg : String := "membership_start and membership_end are required"

/-- Total-fee validation message. -/
def feeMsg : String := "Total fee must be a valid non-negative number"

/-- Amount-paid validation message. -/
def paidMsg : String := "Amount paid must be a valid non-negative number"

/-- Cash validation message. -/
def cashMsg : String := "Cash must be a valid non-negative number"

/-- Online-payment validation message. -/
def onlineMsg : String := "Online payment must be a valid non-negative number"

/-- Security-money validation message. -/
def securityMsg : String := "Security money must be a valid non-negative number"

/-- Missing-student message. -/
def notFoundMsg : String := "Student not found"

/-- Missing-history message of the update route. -/
def noHistoryMsg : String := "No membership history found for this student"

/-- Message for a seat id that does not exist. -/
def seatMissingMsg (sId : Nat) : String :=
  "Seat with ID " ++ toString sId ++ " does not exist"

/-- Message for a shift id that does not exist. -/
def shiftMissingMsg (k : Nat) : String :=
  "Shift with ID " ++ toString k ++ " does not exist"

/-- Seat-conflict message. -/
def conflictMsg (k : Nat) : String :=
  "Seat is already assigned for shift " ++ toString k

/-- Request body of `POST /students`.  `seat_id` models the computed
`seatIdNum` (`seat_id ? parseInt(seat_id, 10) : null`), `shift_ids` the
computed `shiftIdsNum` (non-arrays become `[]`), and the date fields are
`none` when absent/falsy and `some day` for a well-formed date. -/
structure CreateInput where
  name : Option String
  email : Option String
  phone : Option String
  address : Option String
  branch_id : Option Int
  membership_start : Option Int
  membership_end : Option Int
  total_fee : JVal
  amount_paid : JVal
  shift_ids : List Nat
  seat_id : Option Nat
  cash : JVal
  online : JVal
  security_money : JVal
  remark : Option String
  profile_image_url : Option String
deriving DecidableEq

/-- Request body of `PUT /students/:id` (same conventions as `CreateInput`;
the update route has no `profile_image_url` field). -/
structure UpdateInput where
  name : Option String
  email : Option String
  phone : Option String
  address : Option String
  branch_id : Option Int
  membership_start : Option Int
  membership_end : Option Int
  total_fee : JVal
  amount_paid : JVal
  shift_ids : List Nat
  seat_id : Option Nat
  cash : JVal
  online : JVal
  security_money : JVal
  remark : Option String
deriving DecidableEq

/-- Request body of `POST /students/:id/renew`. -/
structure RenewInput where
  membership_start : Option Int
  membership_end : Option Int
  email : Option String
  phone : Option String
  branch_id : Option Int
  seat_id : Option Nat
  shift_ids : List Nat
  total_fee : JVal
  cash : JVal
  online : JVal
  security_money : JVal
  remark : Option String
deriving DecidableEq

/-- Create line 291: `parseFloat(total_fee || 0)`. -/
def createFeeValue (ci : CreateInput) : Option ℚ :=
  parseFloat (jsOr ci.total_fee (JVal.num 0))

/-- Create line 292: `parseFloat(amount_paid || 0)`. -/
def createPaidValue (ci : CreateInput) : Option ℚ :=
  parseFloat (jsOr ci.amount_paid (JVal.num 0))

/-- Create line 304: `cash !== undefined ? parseFloat(cash) : 0`. -/
def createCashValue (ci : CreateInput) : Option ℚ :=
  if ci.cash = JVal.undef then some 0 else parseFloat ci.cash

/-- Create line 305: `online !== undefined ? parseFloat(online) : 0`. -/
def createOnlineValue (ci : CreateInput) : Option ℚ :=
  if ci.online = JVal.undef then some 0 else parseFloat ci.online

/-- Create line 306: `security_money !== undefined ?
parseFloat(security_money) : 0`. -/
def createSecurityValue (ci : CreateInput) : Option ℚ :=
  if ci.security_money = JVal.undef then some 0 else parseFloat ci.security_money

/-- Update lines 469-471: a supplied `total_fee` is parsed, otherwise the
stored value is re-read through `parseFloat(current.total_fee || 0)`
(the stored numeric column, which every write path keeps non-null). -/
def updTotalFee (ui : UpdateInput) (cur : StudentRow) : Option ℚ :=
  if specified ui.total_fee then parseFloat ui.total_fee
  else parseFloat (jsOr (JVal.num cur.total_fee) (JVal.num 0))

/-- Update lines 472-474 for `amount_paid`. -/
def updAmountPaid (ui : UpdateInput) (cur : StudentRow) : Option ℚ :=
  if specified ui.amount_paid then parseFloat ui.amount_paid
  else parseFloat (jsOr (JVal.num cur.amount_paid) (JVal.num 0))

/-- Update lines 475-477 for `cash`. -/
def updCash (ui : UpdateInput) (cur : StudentRow) : Option ℚ :=
  if specified ui.cash then parseFloat ui.cash
  else parseFloat (jsOr (JVal.num cur.cash) (JVal.num 0))

/-- Update lines 478-480 for `online`. -/
def updOnline (ui : UpdateInput) (cur : StudentRow) : Option ℚ :=
  if specified ui.online then parseFloat ui.online
  else parseFloat (jsOr (JVal.num cur.online) (JVal.num 0))

/-- Update lines 481-483 for `security_money`. -/
def updSecurity (ui : UpdateInput) (cur : StudentRow) : Option ℚ :=
  if specified ui.security_money then parseFloat ui.security_money
  else parseFloat (jsOr (JVal.num cur.security_money) (JVal.num 0))

/-- Renew line 726: `parseFloat(total_fee || old.total_fee || 0)`. -/
def renewFeeValue (ri : RenewInput) (old : StudentRow) : Option ℚ :=
  parseFloat (jsOr (jsOr ri.total_fee (JVal.num old.total_fee)) (JVal.num 0))

/-- Renew line 730: `parseFloat(cash || 0)`. -/
def renewCashValue (ri : RenewInput) : Option ℚ :=
  parseFloat (jsOr ri.cash (JVal.num 0))

/-- Renew line 731: `parseFloat(online || 0)`. -/
def renewOnlineValue (ri : RenewInput) : Option ℚ :=
  parseFloat (jsOr ri.online (JVal.num 0))

/-- Renew line 732: `parseFloat(security_money || old.security_money || 0)`. -/
def renewSecurityValue (ri : RenewInput) (old : StudentRow) : Option ℚ :=
  parseFloat (jsOr (jsOr ri.security_money (JVal.num old.security_money)) (JVal.num 0))

/-- The student row inserted by the create route (lines 362-372), with
`due_amount = feeValue - paidValue` and the write-time status. -/
def createNewRow (db : DB) (ci : CreateInput) (now : ℚ) (f p c o s : ℚ) : StudentRow :=
  { id := db.nextStudentId
    name := ci.name.getD ""
    email := ci.email
    phone := ci.phone
    address := ci.address
    branch_id := ci.branch_id.getD 0
    membership_start := ci.membership_start.getD 0
    membership_end := ci.membership_end.getD 0
    total_fee := f
    amount_paid := p
    due_amount := f - p
    cash := c
    online := o
    security_money := s
    remark := orNullStr ci.remark
    profile_image_url := orNullStr ci.profile_image_url
    status := writeTimeStatus (ci.membership_end.getD 0) now }

/-- The history row inserted by create (lines 389-405) and renew (lines
795-811): a snapshot of the freshly written student row, with the raw
`seatIdNum`, the computed first shift id, and the raw branch id. -/
def snapshotHistoryRow (hid : Nat) (st : StudentRow) (seatIdNum firstShiftId : Option Nat)
    (branchIdNum : Option Int) (now : ℚ) : HistoryRow :=
  { id := hid
    student_id := st.id
    name := st.name
    email := st.email
    phone := st.phone
    address := st.address
    membership_start := st.membership_start
    membership_end := st.membership_end
    status := st.status
    total_fee := st.total_fee
    amount_paid := st.amount_paid
    due_amount := st.due_amount
    cash := st.cash
    online := st.online
    security_money := st.security_money
    remark := st.remark.getD ""
    seat_id := seatIdNum
    shift_id := firstShiftId
    branch_id := branchIdNum
    changed_at := now }

/-- Outcome of the create route's validation stage. -/
inductive CreateOutcome where
  | fail (code : Nat) (msg : String) (mid : List DbCall)
  | ok (f p c o s : ℚ) (mid : List DbCall)
deriving DecidableEq

/-- Seat/shift validation of the create route (lines 326-354), entered
after the monetary checks pass: seat existence, shift existence, then the
(seat, shift) conflict check without any student exclusion. -/
def createSeatDecide (db : DB) (ci : CreateInput) (f p c o s : ℚ) : CreateOutcome :=
  if seatTruthy ci.seat_id && !ci.shift_ids.isEmpty then
    if db.seats.contains (ci.seat_id.getD 0) then
      match (checkLoopTrace (fun k => db.schedules.contains k)
          SqlTag.selectSchedules ci.shift_ids).2 with
      | some k =>
        .fail 400 (shiftMissingMsg k)
          (DbCall.query SqlTag.selectSeats ::
            (checkLoopTrace (fun k => db.schedules.contains k)
              SqlTag.selectSchedules ci.shift_ids).1)
      | none =>
        match (checkLoopTrace (fun k => !assignExists db (ci.seat_id.getD 0) k)
            SqlTag.selectAssignments ci.shift_ids).2 with
        | some k =>
          .fail 400 (conflictMsg k)
            (DbCall.query SqlTag.selectSeats ::
              ((checkLoopTrace (fun k => db.schedules.contains k)
                  SqlTag.selectSchedules ci.shift_ids).1 ++
                (checkLoopTrace (fun k => !assignExists db (ci.seat_id.getD 0) k)
                  SqlTag.selectAssignments ci.shift_ids).1))
        | none =>
          .ok f p c o s
            (DbCall.query SqlTag.selectSeats ::
              ((checkLoopTrace (fun k => db.schedules.contains k)
                  SqlTag.selectSchedules ci.shift_ids).1 ++
                (checkLoopTrace (fun k => !assignExists db (ci.seat_id.getD 0) k)
                  SqlTag.selectAssignments ci.shift_ids).1))
    else .fail 400 (seatMissingMsg (ci.seat_id.getD 0)) [DbCall.query SqlTag.selectSeats]
  else .ok f p c o s []

/-- Validation stage of `POST /students` (lines 274-356): required fields,
monetary parsing and non-negativity in source order, then the seat/shift
checks. -/
def createDecide (db : DB) (ci : CreateInput) : CreateOutcome :=
  if strFalsy ci.name || !intTruthy ci.branch_id
      || ci.membership_start.isNone || ci.membership_end.isNone then
    .fail 400 reqMsgCreate []
  else
    match createFeeValue ci with
    | none => .fail 400 feeMsg []
    | some f =>
      if f < 0 then .fail 400 feeMsg []
      else
        match createPaidValue ci with
        | none => .fail 400 paidMsg []
        | some p =>
          if p < 0 then .fail 400 paidMsg []
          else
            match createCashValue ci with
            | none => .fail 400 cashMsg []
            | some c =>
              if c < 0 then .fail 400 cashMsg []
              else
                match createOnlineValue ci with
                | none => .fail 400 onlineMsg []
                | some o =>
                  if o < 0 then .fail 400 onlineMsg []
                  else
                    match createSecurityValue ci with
                    | none => .fail 400 securityMsg []
                    | some s =>
                      if s < 0 then .fail 400 securityMsg []
                      else createSeatDecide db ci f p c o s

/-- The database state after a successful create: the new student row, one
seat assignment per shift when seat and shifts were supplied, and one
appended history snapshot recording only the first shift id. -/
def createFinalDb (db : DB) (ci : CreateInput) (now : ℚ) (f p c o s : ℚ) : DB :=
  let st := createNewRow db ci now f p c o s
  let doAssign := seatTruthy ci.seat_id && !ci.shift_ids.isEmpty
  { db with
    students := db.students ++ [st]
    nextStudentId := db.nextStudentId + 1
    seat_assignments := db.seat_assignments ++
      (if doAssign then ci.shift_ids.map (fun k => SeatAssignment.mk (ci.seat_id.getD 0) k st.id)
       else [])
    history := db.history ++
      [snapshotHistoryRow db.nextHistoryId st ci.seat_id
        (if doAssign then firstShiftIdOf ci.shift_ids else none)
        (some (ci.branch_id.getD 0)) now]
    nextHistoryId := db.nextHistoryId + 1 }

/-- `POST /students` (lines 269-429): a dedicated connection and a
BEGIN ... COMMIT/ROLLBACK transaction around the whole sequence. -/
def createStudent (db : DB) (ci : CreateInput) (now : ℚ) : HResult :=
  match createDecide db ci with
  | .fail code msg mid => txnFail db code msg mid
  | .ok f p c o s mid =>
    txnOk (createFinalDb db ci now f p c o s) 201 (createNewRow db ci now f p c o s)
      (mid ++ DbCall.query SqlTag.insertStudents ::
        ((if seatTruthy ci.seat_id && !ci.shift_ids.isEmpty then
            ci.shift_ids.map (fun _ => DbCall.query SqlTag.insertAssignment)
          else []) ++ [DbCall.query SqlTag.insertHistory]))

/-- Outcome of the update route's validation stage. -/
inductive UpdOutcome where
  | fail (code : Nat) (msg : String) (mid : List DbCall)
  | ok (cur : StudentRow) (tf ap c o s : ℚ) (hl : HistoryRow) (mid : List DbCall)
deriving DecidableEq

/-- Trace of the update route's seat-assignment phase (lines 567-581): the
unconditional DELETE, plus one INSERT per shift when seat and shifts were
supplied. -/
def updAssignTrace (ui : UpdateInput) : List DbCall :=
  if seatTruthy ui.seat_id && !ui.shift_ids.isEmpty then
    DbCall.query SqlTag.deleteAssignments ::
      ui.shift_ids.map (fun _ => DbCall.query SqlTag.insertAssignment)
  else [DbCall.query SqlTag.deleteAssignments]

/-- Tail of the update route after all validation passed (lines 544-618):
the redundant affected-rows check of the UPDATE, the seat-assignment
delete/reinsert trace, and the latest-history lookup that fails with 404
when the student has no history row. -/
def updateDecideTail (db : DB) (id : Nat) (ui : UpdateInput) (cur : StudentRow)
    (tf ap c o s : ℚ) (pre : List DbCall) : UpdOutcome :=
  if (db.students.filter (fun st => st.id == id)).isEmpty then
    .fail 404 notFoundMsg (pre ++ [DbCall.query SqlTag.updateStudents])
  else
    match latestHistoryRow (db.history.filter (fun r => r.student_id == id)) with
    | none =>
      .fail 404 noHistoryMsg
        (pre ++ [DbCall.query SqlTag.updateStudents] ++ updAssignTrace ui ++
          [DbCall.query SqlTag.selectHistory])
    | some hl =>
      .ok cur tf ap c o s hl
        (pre ++ [DbCall.query SqlTag.updateStudents] ++ updAssignTrace ui ++
          [DbCall.query SqlTag.selectHistory] ++ [DbCall.query SqlTag.updateHistory])

/-- Seat/shift validation of the update route (lines 511-539): seat
existence, shift existence, then the conflict check excluding the student
itself (`student_id != $3`). -/
def updateSeatDecide (db : DB) (id : Nat) (ui : UpdateInput) (cur : StudentRow)
    (tf ap c o s : ℚ) (t0 : List DbCall) : UpdOutcome :=
  if seatTruthy ui.seat_id && !ui.shift_ids.isEmpty then
    if db.seats.contains (ui.seat_id.getD 0) then
      match (checkLoopTrace (fun k => db.schedules.contains k)
          SqlTag.selectSchedules ui.shift_ids).2 with
      | some k =>
        .fail 400 (shiftMissingMsg k)
          (t0 ++ DbCall.query SqlTag.selectSeats ::
            (checkLoopTrace (fun k => db.schedules.contains k)
              SqlTag.selectSchedules ui.shift_ids).1)
      | none =>
        match (checkLoopTrace (fun k => !assignExistsOther db (ui.seat_id.getD 0) k id)
            SqlTag.selectAssignments ui.shift_ids).2 with
        | some k =>
          .fail 400 (conflictMsg k)
            (t0 ++ DbCall.query SqlTag.selectSeats ::
              ((checkLoopTrace (fun k => db.schedules.contains k)
                  SqlTag.selectSchedules ui.shift_ids).1 ++
                (checkLoopTrace (fun k => !assignExistsOther db (ui.seat_id.getD 0) k id)
                  SqlTag.selectAssignments ui.shift_ids).1))
        | none =>
          updateDecideTail db id ui cur tf ap c o s
            (t0 ++ DbCall.query SqlTag.selectSeats ::
              ((checkLoopTrace (fun k => db.schedules.contains k)
                  SqlTag.selectSchedules ui.shift_ids).1 ++
                (checkLoopTrace (fun k => !assignExistsOther db (ui.seat_id.getD 0) k id)
                  SqlTag.selectAssignments ui.shift_ids).1))
    else .fail 400 (seatMissingMsg (ui.seat_id.getD 0)) (t0 ++ [DbCall.query SqlTag.selectSeats])
  else updateDecideTail db id ui cur tf ap c o s t0

/-- Validation stage of `PUT /students/:id` (lines 437-542): required
fields, existence of the student, monetary resolution with fallback to
stored values, non-negativity, then the seat/shift checks. -/
def updateDecide (db : DB) (id : Nat) (ui : UpdateInput) : UpdOutcome :=
  if strFalsy ui.name || strFalsy ui.email || strFalsy ui.phone || strFalsy ui.address
      || !intTruthy ui.branch_id || ui.membership_start.isNone || ui.membership_end.isNone then
    .fail 400 reqMsgUpdate []
  else
    match db.students.find? (fun st => st.id == id) with
    | none => .fail 404 notFoundMsg [DbCall.query SqlTag.selectStudents]
    | some cur =>
      match updTotalFee ui cur with
      | none => .fail 400 feeMsg [DbCall.query SqlTag.selectStudents]
      | some tf =>
        if tf < 0 then .fail 400 feeMsg [DbCall.query SqlTag.selectStudents]
        else
          match updAmountPaid ui cur with
          | none => .fail 400 paidMsg [DbCall.query SqlTag.selectStudents]
          | some ap =>
            if ap < 0 then .fail 400 paidMsg [DbCall.query SqlTag.selectStudents]
            else
              match updCash ui cur with
              | none => .fail 400 cashMsg [DbCall.query SqlTag.selectStudents]
              | some c =>
                if c < 0 then .fail 400 cashMsg [DbCall.query SqlTag.selectStudents]
                else
                  match updOnline ui cur with
                  | none => .fail 400 onlineMsg [DbCall.query SqlTag.selectStudents]
                  | some o =>
                    if o < 0 then .fail 400 onlineMsg [DbCall.query SqlTag.selectStudents]
                    else
                      match updSecurity ui cur with
                      | none => .fail 400 securityMsg [DbCall.query SqlTag.selectStudents]
                      | some s =>
                        if s < 0 then .fail 400 securityMsg [DbCall.query SqlTag.selectStudents]
                        else updateSeatDecide db id ui cur tf ap c o s [DbCall.query SqlTag.selectStudents]

/-- The row transformer of the update route's `UPDATE students` statement
(lines 545-558): every listed column is overwritten, `profile_image_url`
is untouched. -/
def updRowFn (ui : UpdateInput) (now : ℚ) (tf ap c o s : ℚ) (r : StudentRow) : StudentRow :=
  { r with
    name := ui.name.getD ""
    email := ui.email
    phone := ui.phone
    address := ui.address
    branch_id := (branchIdNumOf ui.branch_id).getD 0
    membership_start := ui.membership_start.getD 0
    membership_end := ui.membership_end.getD 0
    total_fee := tf
    amount_paid := ap
    due_amount := tf - ap
    cash := c
    online := o
    security_money := s
    remark := orNullStr ui.remark
    status := writeTimeStatus (ui.membership_end.getD 0) now }

/-- The row transformer of the update route's
`UPDATE student_membership_history` statement (lines 601-618), applied to
the latest history row: `id` and `student_id` are untouched. -/
def updHistOverwrite (ui : UpdateInput) (now : ℚ) (tf ap c o s : ℚ)
    (firstShiftId : Option Nat) (r : HistoryRow) : HistoryRow :=
  { r with
    name := ui.name.getD ""
    email := ui.email
    phone := ui.phone
    address := ui.address
    membership_start := ui.membership_start.getD 0
    membership_end := ui.membership_end.getD 0
    status := writeTimeStatus (ui.membership_end.getD 0) now
    total_fee := tf
    amount_paid := ap
    due_amount := tf - ap
    cash := c
    online := o
    security_money := s
    remark := ui.remark.getD ""
    seat_id := ui.seat_id
    shift_id := firstShiftId
    branch_id := branchIdNumOf ui.branch_id
    changed_at := now }

/-- The database state after a successful update: the student row
overwritten, all of the student's seat assignments deleted and — only when
seat and shifts were supplied — reinserted, and the latest history row
overwritten in place. -/
def updFinalDb (db : DB) (id : Nat) (ui : UpdateInput) (now : ℚ)
    (tf ap c o s : ℚ) (hl : HistoryRow) : DB :=
  let doAssign := seatTruthy ui.seat_id && !ui.shift_ids.isEmpty
  { db with
    students := db.students.map (fun r => if r.id == id then updRowFn ui now tf ap c o s r else r)
    seat_assignments :=
      db.seat_assignments.filter (fun a => a.student_id != id) ++
        (if doAssign then ui.shift_ids.map (fun k => SeatAssignment.mk (ui.seat_id.getD 0) k id)
         else [])
    history := db.history.map (fun r =>
      if r.id == hl.id then
        updHistOverwrite ui now tf ap c o s
          (if doAssign then firstShiftIdOf ui.shift_ids else none) r
      else r) }

/-- `PUT /students/:id` (lines 432-644): a dedicated connection and a
BEGIN ... COMMIT/ROLLBACK transaction around the whole sequence. -/
def updateStudent (db : DB) (id : Nat) (ui : UpdateInput) (now : ℚ) : HResult :=
  match updateDecide db id ui with
  | .fail code msg mid => txnFail db code msg mid
  | .ok cur tf ap c o s hl mid =>
    txnOk (updFinalDb db id ui now tf ap c o s hl) 200 (updRowFn ui now tf ap c o s cur) mid

/-- Outcome of the renew route's validation stage. -/
inductive RenewOutcome where
  | fail (code : Nat) (msg : String) (mid : List DbCall)
  | ok (old : StudentRow) (f c o s : ℚ) (mid : List DbCall)
deriving DecidableEq

/-- Validation stage of `POST /students/:id/renew` (lines 706-756):
required dates, existence of the student, monetary parsing with `||`
fallback to stored values, non-negativity — and for seat/shift input only
the conflict check: unlike create and update there is no seat-existence or
shift-existence query. -/
def renewDecide (db : DB) (id : Nat) (ri : RenewInput) : RenewOutcome :=
  if ri.membership_start.isNone || ri.membership_end.isNone then
    .fail 400 renewReqMsg []
  else
    match db.students.find? (fun st => st.id == id) with
    | none => .fail 404 notFoundMsg [DbCall.query SqlTag.selectStudents]
    | some old =>
      match renewFeeValue ri old with
      | none => .fail 400 feeMsg [DbCall.query SqlTag.selectStudents]
      | some f =>
        if f < 0 then .fail 400 feeMsg [DbCall.query SqlTag.selectStudents]
        else
          match renewCashValue ri with
          | none => .fail 400 cashMsg [DbCall.query SqlTag.selectStudents]
          | some c =>
            if c < 0 then .fail 400 cashMsg [DbCall.query SqlTag.selectStudents]
            else
              match renewOnlineValue ri with
              | none => .fail 400 onlineMsg [DbCall.query SqlTag.selectStudents]
              | some o =>
                if o < 0 then .fail 400 onlineMsg [DbCall.query SqlTag.selectStudents]
                else
                  match renewSecurityValue ri old with
                  | none => .fail 400 securityMsg [DbCall.query SqlTag.selectStudents]
                  | some s =>
                    if s < 0 then .fail 400 securityMsg [DbCall.query SqlTag.selectStudents]
                    else
                      if seatTruthy ri.seat_id && !ri.shift_ids.isEmpty then
                        match (checkLoopTrace
                            (fun k => !assignExistsOther db (ri.seat_id.getD 0) k id)
                            SqlTag.selectAssignments ri.shift_ids).2 with
                        | some k =>
                          .fail 400 (conflictMsg k)
                            (DbCall.query SqlTag.selectStudents ::
                              (checkLoopTrace
                                (fun k => !assignExistsOther db (ri.seat_id.getD 0) k id)
                                SqlTag.selectAssignments ri.shift_ids).1)
                        | none =>
                          .ok old f c o s
                            (DbCall.query SqlTag.selectStudents ::
                              (checkLoopTrace
                                (fun k => !assignExistsOther db (ri.seat_id.getD 0) k id)
                                SqlTag.selectAssignments ri.shift_ids).1)
                      else .ok old f c o s [DbCall.query SqlTag.selectStudents]

/-- The row transformer of the renew route's `UPDATE students` statement
(lines 758-780): `status` is the literal `'active'`, `email`/`phone`/
`branch_id` go through COALESCE, `amount_paid = cash + online`,
`due_amount = total_fee - amount_paid`; name, address and
`profile_image_url` are untouched. -/
def renewRowFn (ri : RenewInput) (f c o s : ℚ) (r : StudentRow) : StudentRow :=
  { r with
    membership_start := ri.membership_start.getD 0
    membership_end := ri.membership_end.getD 0
    status := "active"
    email := coalesceStr ri.email r.email
    phone := coalesceStr ri.phone r.phone
    branch_id := (branchIdNumOf ri.branch_id).getD r.branch_id
    total_fee := f
    amount_paid := c + o
    due_amount := f - (c + o)
    cash := c
    online := o
    security_money := s
    remark := orNullStr ri.remark }

/-- The database state after a successful renew: the student row updated;
the student's assignments deleted and reinserted only when seat and shifts
were supplied (otherwise left untouched); a new history snapshot is always
appended (renew never overwrites history). -/
def renewFinalDb (db : DB) (id : Nat) (ri : RenewInput) (f c o s : ℚ) (now : ℚ)
    (old : StudentRow) : DB :=
  let doAssign := seatTruthy ri.seat_id && !ri.shift_ids.isEmpty
  { db with
    students := db.students.map (fun r => if r.id == id then renewRowFn ri f c o s r else r)
    seat_assignments :=
      if doAssign then
        db.seat_assignments.filter (fun a => a.student_id != id) ++
          ri.shift_ids.map (fun k => SeatAssignment.mk (ri.seat_id.getD 0) k id)
      else db.seat_assignments
    history := db.history ++
      [snapshotHistoryRow db.nextHistoryId (renewRowFn ri f c o s old) ri.seat_id
        (if doAssign then firstShiftIdOf ri.shift_ids else none)
        (branchIdNumOf ri.branch_id) now]
    nextHistoryId := db.nextHistoryId + 1 }

/-- `POST /students/:id/renew` (lines 704-830): every statement is issued
directly on the shared pool — no dedicated connection, no BEGIN, no
COMMIT, no ROLLBACK on any path. -/
def renewStudent (db : DB) (id : Nat) (ri : RenewInput) (now : ℚ) : HResult :=
  match renewDecide db id ri with
  | .fail code msg mid => bareFail db code msg mid
  | .ok old f c o s mid =>
    { db := renewFinalDb db id ri f c o s now old
      resp := .ok 200 (renewRowFn ri f c o s old)
      calls := mid ++ DbCall.query SqlTag.updateStudents ::
        ((if seatTruthy ri.seat_id && !ri.shift_ids.isEmpty then
            DbCall.query SqlTag.deleteAssignments ::
              ri.shift_ids.map (fun _ => DbCall.query SqlTag.insertAssignment)
          else []) ++ [DbCall.query SqlTag.insertHistory]) }

/-- `DELETE /students/:id` (lines 647-661): three independent pool
queries, no transaction; assignments and history are removed even when the
student does not exist. -/
def deleteStudent (db : DB) (id : Nat) : HResult :=
  let db1 := { db with
    seat_assignments := db.seat_assignments.filter (fun a => a.student_id != id)
    history := db.history.filter (fun h => h.student_id != id) }
  let t := [DbCall.query SqlTag.deleteAssignments, DbCall.query SqlTag.deleteHistory,
    DbCall.query SqlTag.deleteStudents]
  match db.students.find? (fun st => st.id == id) with
  | none => { db := db1, resp := .err 404 notFoundMsg, calls := t }
  | some st =>
    { db := { db1 with students := db1.students.filter (fun r => r.id != id) }
      resp := .ok 200 st
      calls := t }

/-- The trace of a handler run that acquires a dedicated connection, opens
a transaction right away, ends the transaction with COMMIT on success and
ROLLBACK on failure, and releases the connection last. -/
def txnWrapped (r : HResult) : Prop :=
  ∃ mid, r.calls = DbCall.poolConnect :: DbCall.txBegin ::
    (mid ++ [(if r.resp.isOk then DbCall.txCommit else DbCall.txRollback), DbCall.release])

/-- The trace of a handler run that only ever issues plain pool queries:
no dedicated connection and no transaction statements at all. -/
def poolOnly (r : HResult) : Bool := r.calls.all DbCall.isQuery

/-! Concrete sample data used to instantiate the theorems on closed
inputs. -/

/-- A stored student row used by the concrete instances. -/
def sampleStudent : StudentRow :=
  { id := 1
    name := "Asha"
    email := none
    phone := none
    address := none
    branch_id := 1
    membership_start := 0
    membership_end := 30
    total_fee := 500
    amount_paid := 200
    due_amount := 300
    cash := 200
    online := 0
    security_money := 100
    remark := none
    profile_image_url := none
    status := "active" }

/-- A history snapshot of `sampleStudent`. -/
def sampleHistory : HistoryRow :=
  { id := 1
    student_id := 1
    name := "Asha"
    email := none
    phone := none
    address := none
    membership_start := 0
    membership_end := 30
    status := "active"
    total_fee := 500
    amount_paid := 200
    due_amount := 300
    cash := 200
    online := 0
    security_money := 100
    remark := ""
    seat_id := none
    shift_id := none
    branch_id := some 1
    changed_at := 1 }

/-- A database holding `sampleStudent` with one history row, two seats and
two schedules. -/
def dbA : DB :=
  { students := [sampleStudent]
    seats := [1, 2]
    schedules := [1, 2]
    seat_assignments := []
    history := [sampleHistory]
    nextStudentId := 2
    nextHistoryId := 2 }

/-- A valid renew request body touching no seat or shift. -/
def riC1 : RenewInput :=
  { membership_start := some 40
    membership_end := some 70
    email := none
    phone := none
    branch_id := none
    seat_id := none
    shift_ids := []
    total_fee := JVal.num 600
    cash := JVal.num 600
    online := JVal.num 0
    security_money := JVal.undef
    remark := none }

/-- A database with `sampleStudent` but no seats and no schedules. -/
def dbC2 : DB :=
  { students := [sampleStudent]
    seats := []
    schedules := []
    seat_assignments := []
    history := []
    nextStudentId := 2
    nextHistoryId := 1 }

/-- A renew request naming a seat and a shift that do not exist. -/
def riC2 : RenewInput := { riC1 with seat_id := some 7, shift_ids := [3] }

/-- A renew request whose new `membership_end` lies in the past of the
instant at which it is processed. -/
def riC3 : RenewInput := { riC1 with membership_start := some 40, membership_end := some 50 }

/-- A renew request supplying the explicit number `0` for `total_fee` and
`security_money`. -/
def riC9 : RenewInput := { riC1 with total_fee := JVal.num 0, security_money := JVal.num 0 }

/-- A valid update request body leaving every monetary field unspecified
(`undefined`, `null` or the empty string) and supplying no shifts. -/
def uiGood : UpdateInput :=
  { name := some "Asha"
    email := some "asha@example.com"
    phone := some "123"
    address := some "Street 1"
    branch_id := some 1
    membership_start := some 0
    membership_end := some 30
    total_fee := JVal.undef
    amount_paid := JVal.null
    shift_ids := []
    seat_id := none
    cash := JVal.str ""
    online := JVal.undef
    security_money := JVal.undef
    remark := none }

/-- A valid create request overpaying the fee (`amount_paid > total_fee`). -/
def ciC5 : CreateInput :=
  { name := some "Bani"
    email := none
    phone := none
    address := none
    branch_id := some 1
    membership_start := some 0
    membership_end := some 30
    total_fee := JVal.num 100
    amount_paid := JVal.num 150
    shift_ids := []
    seat_id := none
    cash := JVal.num 150
    online := JVal.num 0
    security_money := JVal.num 0
    remark := none
    profile_image_url := none }

/-- `dbA` with seat 1 / shift 1 already assigned to student 1. -/
def dbC6 : DB := { dbA with seat_assignments := [SeatAssignment.mk 1 1 1] }

/-- A create request asking for the already-assigned pair seat 1 / shift 1. -/
def ciC6 : CreateInput :=
  { ciC5 with amount_paid := JVal.num 0, cash := JVal.num 0, seat_id := some 1, shift_ids := [1] }

/-- `dbA` with an existing seat assignment for student 1. -/
def dbC7 : DB := { dbA with seat_assignments := [SeatAssignment.mk 2 1 1] }

/-- A create request whose `membership_end` equals the day of the write. -/
def ciC10 : CreateInput := { ciC5 with membership_end := some 0 }

/-- An instant in the middle of day 0. -/
def nowC10 : ℚ := 1 / 2

/-! Basic lemmas about the embedded primitives. -/

/-- Re-reading a stored non-negative numeric column through
`parseFloat(v || 0)` gives back the stored value. -/
theorem parseFloat_jsOr_num_zero (q : ℚ) :
    parseFloat (jsOr (JVal.num q) (JVal.num 0)) = some q := by
  unfold jsOr truthy
  by_cases h : q = 0
  · subst h; simp [parseFloat]
  · simp [h, parseFloat]

/-- The early-return check loop fails exactly at the first element failing
the check. -/
theorem checkLoopTrace_snd (ok : Nat → Bool) (tag : SqlTag) (xs : List Nat) :
    (checkLoopTrace ok tag xs).2 = xs.find? (fun x => !ok x) := by
  induction xs with
  | nil => rfl
  | cons x rest ih =>
    by_cases h : ok x = true
    · simp [checkLoopTrace, h, List.find?, ih]
    · simp at h
      simp [checkLoopTrace, h, List.find?]

/-- The check loop issues only plain queries. -/
theorem checkLoopTrace_all_query (ok : Nat → Bool) (tag : SqlTag) (xs : List Nat) :
    ((checkLoopTrace ok tag xs).1).all DbCall.isQuery = true := by
  induction xs with
  | nil => rfl
  | cons x rest ih =>
    by_cases h : ok x = true
    · simp [checkLoopTrace, h, DbCall.isQuery, ih]
    · simp at h
      simp [checkLoopTrace, h, DbCall.isQuery]

/-- A constant-query trace is all queries. -/
theorem all_isQuery_map (tag : SqlTag) (xs : List Nat) :
    ((xs.map (fun _ => DbCall.query tag)).all DbCall.isQuery) = true := by
  induction xs with
  | nil => rfl
  | cons x rest ih => simp [DbCall.isQuery, ih]

/-- On a non-empty list `latestHistoryRow` yields the running maximum of
the tail combined with the head. -/
theorem latestHistoryRow_cons (r : HistoryRow) (rest : List HistoryRow) :
    latestHistoryRow (r :: rest) =
      some (match latestHistoryRow rest with
        | none => r
        | some b => if b.changed_at > r.changed_at then b else r) := by
  simp only [latestHistoryRow]
  cases latestHistoryRow rest with
  | none => rfl
  | some b =>
    by_cases hc : b.changed_at > r.changed_at
    · simp [hc]
    · simp [hc]

/-- `latestHistoryRow` finds a row exactly on non-empty lists. -/
theorem latestHistoryRow_eq_none (l : List HistoryRow) :
    latestHistoryRow l = none ↔ l = [] := by
  cases l with
  | nil => simp [latestHistoryRow]
  | cons r rest => simp [latestHistoryRow_cons]

/-- The row chosen by `latestHistoryRow` is a member of the list. -/
theorem latestHistoryRow_mem {l : List HistoryRow} :
    ∀ {r : HistoryRow}, latestHistoryRow l = some r → r ∈ l := by
  induction l with
  | nil => intro r h; exact Option.noConfusion h
  | cons x rest ih =>
    intro r h
    rw [latestHistoryRow_cons] at h
    obtain rfl := Option.some.inj h
    cases hr : latestHistoryRow rest with
    | none => simp
    | some b =>
      by_cases hc : b.changed_at > x.changed_at
      · simp only [hc, if_true]
        exact List.mem_cons_of_mem _ (ih hr)
      · simp [hc]

/-! Transaction-structure predicates and facts (claim C1). -/

/-- A `txnFail` run is transaction-wrapped. -/
theorem txnWrapped_txnFail (db : DB) (code : Nat) (msg : String) (mid : List DbCall) :
    txnWrapped (txnFail db code msg mid) := ⟨mid, rfl⟩

/-- A `txnOk` run is transaction-wrapped. -/
theorem txnWrapped_txnOk (db : DB) (code : Nat) (st : StudentRow) (mid : List DbCall) :
    txnWrapped (txnOk db code st mid) := ⟨mid, rfl⟩

/-- The validation trace of the renew route consists of plain queries (fail
case). -/
theorem renewDecide_fail_mid {db : DB} {id : Nat} {ri : RenewInput}
    {code : Nat} {msg : String} {mid : List DbCall}
    (e : renewDecide db id ri = RenewOutcome.fail code msg mid) :
    mid.all DbCall.isQuery = true := by
  unfold renewDecide at e
  repeat' split at e
  all_goals try exact RenewOutcome.noConfusion e
  all_goals cases e
  all_goals simp [DbCall.isQuery, List.all_append, checkLoopTrace_all_query]

/-- The validation trace of the renew route consists of plain queries (ok
case). -/
theorem renewDecide_ok_mid {db : DB} {id : Nat} {ri : RenewInput}
    {old : StudentRow} {f c o s : ℚ} {mid : List DbCall}
    (e : renewDecide db id ri = RenewOutcome.ok old f c o s mid) :
    mid.all DbCall.isQuery = true := by
  unfold renewDecide at e
  repeat' split at e
  all_goals try exact RenewOutcome.noConfusion e
  all_goals cases e
  all_goals simp [DbCall.isQuery, List.all_append, checkLoopTrace_all_query]

/-- Every run of the renew route touches the database through plain pool
queries only. -/
theorem renewStudent_poolOnly (db : DB) (id : Nat) (ri : RenewInput) (now : ℚ) :
    poolOnly (renewStudent db id ri now) = true := by
  unfold renewStudent
  cases e : renewDecide db id ri with
  | fail code msg mid =>
    have hm := renewDecide_fail_mid e
    simpa [bareFail, poolOnly] using hm
  | ok old f c o s mid =>
    have hm := renewDecide_ok_mid e
    simp only [poolOnly, List.all_append, List.all_cons]
    simp [hm, DbCall.isQuery, List.all_append]
    intro x _ _ hx
    rcases hx with rfl | ⟨-, rfl⟩ <;> rfl

/-- Every run of the delete route touches the database through plain pool
queries only. -/
theorem deleteStudent_poolOnly (db : DB) (id : Nat) :
    poolOnly (deleteStudent db id) = true := by
  unfold deleteStudent
  cases e : db.students.find? (fun st => st.id == id) <;> rfl

/-- Every run of the create route is transaction-wrapped. -/
theorem createStudent_txnWrapped (db : DB) (ci : CreateInput) (now : ℚ) :
    txnWrapped (createStudent db ci now) := by
  unfold createStudent
  cases createDecide db ci with
  | fail code msg mid => exact txnWrapped_txnFail db code msg mid
  | ok f p c o s mid => exact txnWrapped_txnOk _ _ _ _

/-- Every run of the update route is transaction-wrapped. -/
theorem updateStudent_txnWrapped (db : DB) (id : Nat) (ui : UpdateInput) (now : ℚ) :
    txnWrapped (updateStudent db id ui now) := by
  unfold updateStudent
  cases updateDecide db id ui with
  | fail code msg mid => exact txnWrapped_txnFail db code msg mid
  | ok cur tf ap c o s hl mid => exact txnWrapped_txnOk _ _ _ _

/-- C1 (amended): the create and update paths each acquire a dedicated
connection, immediately BEGIN a transaction, end it with COMMIT on success
and an explicit ROLLBACK before responding on any failure, and release the
connection last; the renew and delete paths instead issue every statement
directly on the shared pool — no dedicated connection and no
BEGIN/COMMIT/ROLLBACK on any path, so their multi-statement sequences are
not wrapped in a transaction. -/
theorem write_paths_transactionality (db : DB) (ci : CreateInput) (ui : UpdateInput)
    (ri : RenewInput) (id : Nat) (now : ℚ) :
    txnWrapped (createStudent db ci now) ∧ txnWrapped (updateStudent db id ui now) ∧
    poolOnly (renewStudent db id ri now) = true ∧ poolOnly (deleteStudent db id) = true :=
  ⟨createStudent_txnWrapped db ci now, updateStudent_txnWrapped db id ui now,
    renewStudent_poolOnly db id ri now, deleteStudent_poolOnly db id⟩

/-- C1 counterexample: a successful renew — a write path that does modify
the database — acquires no dedicated connection and issues no BEGIN, no
COMMIT and no ROLLBACK, contradicting the claim that every write path
wraps its multi-statement sequence in a transaction. -/
theorem renew_no_transaction_cex :
    (renewStudent dbA 1 riC1 35).resp.isOk = true ∧
    (renewStudent dbA 1 riC1 35).db ≠ dbA ∧
    DbCall.poolConnect ∉ (renewStudent dbA 1 riC1 35).calls ∧
    DbCall.txBegin ∉ (renewStudent dbA 1 riC1 35).calls ∧
    DbCall.txCommit ∉ (renewStudent dbA 1 riC1 35).calls ∧
    DbCall.txRollback ∉ (renewStudent dbA 1 riC1 35).calls := by
  decide

/-- Inversion of a successful create validation: each monetary value was
parsed and passed the non-negativity check. -/
theorem createDecide_ok_inv {db : DB} {ci : CreateInput} {f p c o s : ℚ} {mid : List DbCall}
    (e : createDecide db ci = CreateOutcome.ok f p c o s mid) :
    createFeeValue ci = some f ∧ 0 ≤ f ∧ createPaidValue ci = some p ∧ 0 ≤ p ∧
    createCashValue ci = some c ∧ 0 ≤ c ∧ createOnlineValue ci = some o ∧ 0 ≤ o ∧
    createSecurityValue ci = some s ∧ 0 ≤ s := by
  unfold createDecide createSeatDecide at e
  repeat' split at e
  all_goals try exact CreateOutcome.noConfusion e
  all_goals cases e
  all_goals
    exact ⟨by assumption, le_of_not_lt (by assumption), by assumption,
      le_of_not_lt (by assumption), by assumption, le_of_not_lt (by assumption),
      by assumption, le_of_not_lt (by assumption), by assumption,
      le_of_not_lt (by assumption)⟩

/-- Inversion of a successful run through the update tail: the carried
values pass through unchanged and the history row is the latest one. -/
theorem updateDecideTail_ok_inv {db : DB} {id : Nat} {ui : UpdateInput}
    {cur cur' : StudentRow} {tf ap c o s tf' ap' c' o' s' : ℚ} {hl : HistoryRow}
    {pre mid : List DbCall}
    (e : updateDecideTail db id ui cur tf ap c o s pre =
      UpdOutcome.ok cur' tf' ap' c' o' s' hl mid) :
    cur' = cur ∧ tf' = tf ∧ ap' = ap ∧ c' = c ∧ o' = o ∧ s' = s ∧
    latestHistoryRow (db.history.filter (fun r => r.student_id == id)) = some hl := by
  unfold updateDecideTail at e
  repeat' split at e
  all_goals try exact UpdOutcome.noConfusion e
  all_goals cases e
  all_goals exact ⟨rfl, rfl, rfl, rfl, rfl, rfl, by assumption⟩

/-- Inversion of a successful run through the update seat/shift stage. -/
theorem updateSeatDecide_ok_inv {db : DB} {id : Nat} {ui : UpdateInput}
    {cur cur' : StudentRow} {tf ap c o s tf' ap' c' o' s' : ℚ} {hl : HistoryRow}
    {t0 mid : List DbCall}
    (e : updateSeatDecide db id ui cur tf ap c o s t0 =
      UpdOutcome.ok cur' tf' ap' c' o' s' hl mid) :
    cur' = cur ∧ tf' = tf ∧ ap' = ap ∧ c' = c ∧ o' = o ∧ s' = s ∧
    latestHistoryRow (db.history.filter (fun r => r.student_id == id)) = some hl := by
  unfold updateSeatDecide at e
  repeat' split at e
  all_goals try exact UpdOutcome.noConfusion e
  all_goals exact updateDecideTail_ok_inv e

/-- Inversion of a successful update validation: the student was found,
each monetary value resolved and passed the checks, and the student has a
latest history row. -/
theorem updateDecide_ok_inv {db : DB} {id : Nat} {ui : UpdateInput} {cur : StudentRow}
    {tf ap c o s : ℚ} {hl : HistoryRow} {mid : List DbCall}
    (e : updateDecide db id ui = UpdOutcome.ok cur tf ap c o s hl mid) :
    db.students.find? (fun st => st.id == id) = some cur ∧
    updTotalFee ui cur = some tf ∧ 0 ≤ tf ∧
    updAmountPaid ui cur = some ap ∧ 0 ≤ ap ∧
    updCash ui cur = some c ∧ 0 ≤ c ∧
    updOnline ui cur = some o ∧ 0 ≤ o ∧
    updSecurity ui cur = some s ∧ 0 ≤ s ∧
    latestHistoryRow (db.history.filter (fun r => r.student_id == id)) = some hl := by
  unfold updateDecide at e
  repeat' split at e
  all_goals try exact UpdOutcome.noConfusion e
  all_goals obtain ⟨rfl, rfl, rfl, rfl, rfl, rfl, hlatest⟩ := updateSeatDecide_ok_inv e
  all_goals
    exact ⟨by assumption, by assumption, le_of_not_lt (by assumption), by assumption,
      le_of_not_lt (by assumption), by assumption, le_of_not_lt (by assumption),
      by assumption, le_of_not_lt (by assumption), by assumption,
      le_of_not_lt (by assumption), hlatest⟩

/-- Inversion of a successful renew validation: the student was found and
each monetary value resolved and passed the checks. -/
theorem renewDecide_ok_inv {db : DB} {id : Nat} {ri : RenewInput} {old : StudentRow}
    {f c o s : ℚ} {mid : List DbCall}
    (e : renewDecide db id ri = RenewOutcome.ok old f c o s mid) :
    db.students.find? (fun st => st.id == id) = some old ∧
    renewFeeValue ri old = some f ∧ 0 ≤ f ∧
    renewCashValue ri = some c ∧ 0 ≤ c ∧
    renewOnlineValue ri = some o ∧ 0 ≤ o ∧
    renewSecurityValue ri old = some s ∧ 0 ≤ s := by
  unfold renewDecide at e
  repeat' split at e
  all_goals try exact RenewOutcome.noConfusion e
  all_goals cases e
  all_goals
    exact ⟨by assumption, by assumption, le_of_not_lt (by assumption), by assumption,
      le_of_not_lt (by assumption), by assumption, le_of_not_lt (by assumption),
      by assumption, le_of_not_lt (by assumption)⟩

/-- A falsy left operand makes `a || b` yield `b`. -/
theorem jsOr_of_falsy {a : JVal} (h : truthy a = false) (b : JVal) : jsOr a b = b := by
  simp [jsOr, h]

/-- Student rows after a successful renew. -/
theorem renewFinalDb_students (db : DB) (id : Nat) (ri : RenewInput) (f c o s now : ℚ)
    (old : StudentRow) :
    (renewFinalDb db id ri f c o s now old).students =
      db.students.map (fun r => if r.id == id then renewRowFn ri f c o s r else r) := rfl

/-- C3: for every successful renew request, the student row returned in
the response and every persisted student row with that id carry status
`'active'`, unconditionally — the route writes the literal `'active'`
independent of the supplied `membership_end`, even when that date lies in
the past. -/
theorem renew_forces_active_status (db : DB) (id : Nat) (ri : RenewInput) (now : ℚ)
    (code : Nat) (st : StudentRow)
    (h : (renewStudent db id ri now).resp = Resp.ok code st) :
    st.status = "active" ∧
    ∀ s' ∈ (renewStudent db id ri now).db.students, s'.id = id → s'.status = "active" := by
  unfold renewStudent at h ⊢
  cases e : renewDecide db id ri with
  | fail code' msg mid =>
    rw [e] at h
    exact absurd h (by simp [bareFail])
  | ok old f c o s mid =>
    rw [e] at h
    have h' : Resp.ok 200 (renewRowFn ri f c o s old) = Resp.ok code st := h
    cases h'
    refine ⟨rfl, ?_⟩
    intro s' hmem hid
    have hmem' : s' ∈ (renewFinalDb db id ri f c o s now old).students := hmem
    rw [renewFinalDb_students] at hmem'
    obtain ⟨r, hrmem, rfl⟩ := List.mem_map.mp hmem'
    by_cases hb : r.id == id
    · rw [if_pos hb]
      rfl
    · rw [if_neg hb] at hid
      exact absurd (beq_iff_eq.mpr hid) hb

/-- C3 witness: renewing `sampleStudent` with `membership_end = 50` at
instant `now = 100` (so the new end date is already in the past) still
stores status `'active'`. -/
theorem renewC3_resp :
    (renewStudent dbA 1 riC3 100).resp =
      Resp.ok 200 (renewRowFn riC3 600 600 0 100 sampleStudent) := by
  norm_num [renewStudent, renewDecide, dbA, riC3, riC1, sampleStudent, renewFeeValue,
    renewCashValue, renewOnlineValue, renewSecurityValue, parseFloat, jsOr, truthy,
    List.find?, seatTruthy, checkLoopTrace]

theorem renew_forces_active_status_w :
    ((50 : ℚ) < 100) ∧
    (renewRowFn riC3 600 600 0 100 sampleStudent).status = "active" := by
  refine ⟨by norm_num, ?_⟩
  exact (renew_forces_active_status dbA 1 riC3 100 200
    (renewRowFn riC3 600 600 0 100 sampleStudent) renewC3_resp).1

/-- C9: in a successful renew, a falsy `total_fee` (the number 0, the
empty string, `null`, `undefined` or `NaN`) makes the stored fee fall back
to the previously stored value rather than the supplied 0, because the
route computes `parseFloat(total_fee || old.total_fee || 0)`; the same
holds for `security_money`. -/
theorem renew_falsy_money_fallback (db : DB) (id : Nat) (ri : RenewInput) (now : ℚ)
    (code : Nat) (st : StudentRow) (old : StudentRow)
    (hfind : db.students.find? (fun r => r.id == id) = some old)
    (h : (renewStudent db id ri now).resp = Resp.ok code st) :
    (truthy ri.total_fee = false → st.total_fee = old.total_fee) ∧
    (truthy ri.security_money = false → st.security_money = old.security_money) := by
  unfold renewStudent at h
  cases e : renewDecide db id ri with
  | fail code' msg mid =>
    rw [e] at h
    exact absurd h (by simp [bareFail])
  | ok old' f c o s mid =>
    rw [e] at h
    obtain ⟨hfind', hfee, -, -, -, -, -, hsec, -⟩ := renewDecide_ok_inv e
    rw [hfind] at hfind'
    obtain rfl := Option.some.inj hfind'
    have h' : Resp.ok 200 (renewRowFn ri f c o s old) = Resp.ok code st := h
    cases h'
    constructor
    · intro ht
      show f = old.total_fee
      have hv : renewFeeValue ri old = some old.total_fee := by
        unfold renewFeeValue
        rw [jsOr_of_falsy ht, parseFloat_jsOr_num_zero]
      rw [hv] at hfee
      exact (Option.some.inj hfee).symm
    · intro ht
      show s = old.security_money
      have hv : renewSecurityValue ri old = some old.security_money := by
        unfold renewSecurityValue
        rw [jsOr_of_falsy ht, parseFloat_jsOr_num_zero]
      rw [hv] at hsec
      exact (Option.some.inj hsec).symm

/-- C9 witness: renewing `sampleStudent` (stored fee 500, stored security
money 100) while supplying `total_fee = 0` and `security_money = 0` keeps
the stored values 500 and 100. -/
theorem renewC9_resp :
    (renewStudent dbA 1 riC9 35).resp =
      Resp.ok 200 (renewRowFn riC9 500 600 0 100 sampleStudent) := by
  norm_num [renewStudent, renewDecide, dbA, riC9, riC1, sampleStudent, renewFeeValue,
    renewCashValue, renewOnlineValue, renewSecurityValue, parseFloat, jsOr, truthy,
    List.find?, seatTruthy, checkLoopTrace]

theorem renew_falsy_money_fallback_w :
    (renewRowFn riC9 500 600 0 100 sampleStudent).total_fee = 500 ∧
    (renewRowFn riC9 500 600 0 100 sampleStudent).security_money = 100 := by
  constructor
  · have := (renew_falsy_money_fallback dbA 1 riC9 35 200
      (renewRowFn riC9 500 600 0 100 sampleStudent) sampleStudent (by decide) renewC9_resp).1
    simpa [sampleStudent] using this (by decide)
  · have := (renew_falsy_money_fallback dbA 1 riC9 35 200
      (renewRowFn riC9 500 600 0 100 sampleStudent) sampleStudent (by decide) renewC9_resp).2
    simpa [sampleStudent] using this (by decide)

/-- Student rows after a successful create. -/
theorem createFinalDb_students (db : DB) (ci : CreateInput) (now : ℚ) (f p c o s : ℚ) :
    (createFinalDb db ci now f p c o s).students =
      db.students ++ [createNewRow db ci now f p c o s] := rfl

/-- C5: for every create request that passes validation, the stored row
satisfies `due_amount = total_fee - amount_paid` exactly, with no floor at
zero, so overpayment yields a negative `due_amount`. -/
theorem create_due_amount_exact (db : DB) (ci : CreateInput) (now : ℚ)
    (code : Nat) (st : StudentRow)
    (h : (createStudent db ci now).resp = Resp.ok code st) :
    st.due_amount = st.total_fee - st.amount_paid ∧
    st ∈ (createStudent db ci now).db.students := by
  unfold createStudent at h ⊢
  cases e : createDecide db ci with
  | fail code' msg mid =>
    rw [e] at h
    exact absurd h (by simp [txnFail])
  | ok f p c o s mid =>
    rw [e] at h
    have h' : Resp.ok 201 (createNewRow db ci now f p c o s) = Resp.ok code st := h
    cases h'
    refine ⟨rfl, ?_⟩
    show createNewRow db ci now f p c o s ∈ (createFinalDb db ci now f p c o s).students
    rw [createFinalDb_students]
    exact List.mem_append_right _ (List.mem_singleton.mpr rfl)

/-- The concrete overpaying create request succeeds and returns the row
built from fee 100 and paid 150. -/
theorem createC5_resp :
    (createStudent dbA ciC5 5).resp =
      Resp.ok 201 (createNewRow dbA ciC5 5 100 150 150 0 0) := by
  norm_num [createStudent, createDecide, createSeatDecide, dbA, ciC5, sampleStudent,
    createFeeValue, createPaidValue, createCashValue, createOnlineValue,
    createSecurityValue, parseFloat, jsOr, truthy, seatTruthy, strFalsy, intTruthy, txnOk,
    (by decide : ¬("Bani" = "")), (by decide : JVal.num 150 ≠ JVal.undef),
    (by decide : JVal.num 0 ≠ JVal.undef)]

/-- C5 witness: fee 100 with payment 150 stores `due_amount = -50`. -/
theorem create_due_amount_exact_w :
    (createNewRow dbA ciC5 5 100 150 150 0 0).due_amount =
      (createNewRow dbA ciC5 5 100 150 150 0 0).total_fee -
        (createNewRow dbA ciC5 5 100 150 150 0 0).amount_paid ∧
    (createNewRow dbA ciC5 5 100 150 150 0 0).due_amount < 0 := by
  refine ⟨(create_due_amount_exact dbA ciC5 5 201
    (createNewRow dbA ciC5 5 100 150 150 0 0) createC5_resp).1, ?_⟩
  show (100 : ℚ) - 150 < 0
  norm_num

/-- C10: the write-time and read-time status derivations disagree on the
boundary day: a student written with `membership_end` equal to the current
day, at any instant strictly after midnight, is persisted (by create and
by update alike) with status `'expired'`, while the read endpoints'
`CASE WHEN membership_end < CURRENT_DATE` classifies the same row as
`'active'`. -/
theorem status_write_read_boundary_divergence (db : DB) (ci : CreateInput) (ui : UpdateInput)
    (id : Nat) (now : ℚ) (d : Int)
    (hday : (⌊now⌋ : Int) = d) (hmid : (d : ℚ) < now) :
    (∀ code st, ci.membership_end = some d →
      (createStudent db ci now).resp = Resp.ok code st →
      st.status = "expired" ∧ readTimeStatus st.membership_end ⌊now⌋ = "active") ∧
    (∀ code st, ui.membership_end = some d →
      (updateStudent db id ui now).resp = Resp.ok code st →
      st.status = "expired" ∧ readTimeStatus st.membership_end ⌊now⌋ = "active") := by
  constructor
  · intro code st hme h
    unfold createStudent at h
    cases e : createDecide db ci with
    | fail code' msg mid =>
      rw [e] at h
      exact absurd h (by simp [txnFail])
    | ok f p c o s mid =>
      rw [e] at h
      have h' : Resp.ok 201 (createNewRow db ci now f p c o s) = Resp.ok code st := h
      cases h'
      constructor
      · show writeTimeStatus (ci.membership_end.getD 0) now = "expired"
        rw [hme]
        unfold writeTimeStatus
        simp only [Option.getD_some]
        rw [if_pos hmid]
      · show readTimeStatus (ci.membership_end.getD 0) ⌊now⌋ = "active"
        rw [hme, hday]
        unfold readTimeStatus
        simp only [Option.getD_some]
        rw [if_neg (lt_irrefl d)]
  · intro code st hme h
    unfold updateStudent at h
    cases e : updateDecide db id ui with
    | fail code' msg mid =>
      rw [e] at h
      exact absurd h (by simp [txnFail])
    | ok cur tf ap c o s hl mid =>
      rw [e] at h
      have h' : Resp.ok 200 (updRowFn ui now tf ap c o s cur) = Resp.ok code st := h
      cases h'
      constructor
      · show writeTimeStatus (ui.membership_end.getD 0) now = "expired"
        rw [hme]
        unfold writeTimeStatus
        simp only [Option.getD_some]
        rw [if_pos hmid]
      · show readTimeStatus (ui.membership_end.getD 0) ⌊now⌋ = "active"
        rw [hme, hday]
        unfold readTimeStatus
        simp only [Option.getD_some]
        rw [if_neg (lt_irrefl d)]

/-- The boundary-day create request succeeds. -/
theorem createC10_resp :
    (createStudent dbA ciC10 nowC10).resp =
      Resp.ok 201 (createNewRow dbA ciC10 nowC10 100 150 150 0 0) := by
  norm_num [createStudent, createDecide, createSeatDecide, dbA, ciC10, ciC5, nowC10,
    sampleStudent, createFeeValue, createPaidValue, createCashValue, createOnlineValue,
    createSecurityValue, parseFloat, jsOr, truthy, seatTruthy, strFalsy, intTruthy, txnOk,
    (by decide : ¬("Bani" = "")), (by decide : JVal.num 150 ≠ JVal.undef),
    (by decide : JVal.num 0 ≠ JVal.undef)]

/-- C10 witness: a student created at instant 1/2 of day 0 with
`membership_end` day 0 is stored `'expired'`, yet the read-time derivation
on the same day says `'active'`. -/
theorem status_write_read_boundary_divergence_w :
    (createNewRow dbA ciC10 nowC10 100 150 150 0 0).status = "expired" ∧
    readTimeStatus (createNewRow dbA ciC10 nowC10 100 150 150 0 0).membership_end
      ⌊nowC10⌋ = "active" :=
  (status_write_read_boundary_divergence dbA ciC10 uiGood 1 nowC10 0
    (by norm_num [nowC10]) (by norm_num [nowC10])).1 201
    (createNewRow dbA ciC10 nowC10 100 150 150 0 0) rfl createC10_resp

/-- Student rows after a successful update. -/
theorem updFinalDb_students (db : DB) (id : Nat) (ui : UpdateInput) (now : ℚ)
    (tf ap c o s : ℚ) (hl : HistoryRow) :
    (updFinalDb db id ui now tf ap c o s hl).students =
      db.students.map (fun r => if r.id == id then updRowFn ui now tf ap c o s r else r) := rfl

/-- Seat assignments after a successful update. -/
theorem updFinalDb_assignments (db : DB) (id : Nat) (ui : UpdateInput) (now : ℚ)
    (tf ap c o s : ℚ) (hl : HistoryRow) :
    (updFinalDb db id ui now tf ap c o s hl).seat_assignments =
      db.seat_assignments.filter (fun a => a.student_id != id) ++
        (if seatTruthy ui.seat_id && !ui.shift_ids.isEmpty then
          ui.shift_ids.map (fun k => SeatAssignment.mk (ui.seat_id.getD 0) k id)
        else []) := rfl

/-- History rows after a successful update. -/
theorem updFinalDb_history (db : DB) (id : Nat) (ui : UpdateInput) (now : ℚ)
    (tf ap c o s : ℚ) (hl : HistoryRow) :
    (updFinalDb db id ui now tf ap c o s hl).history =
      db.history.map (fun r =>
        if r.id == hl.id then
          updHistOverwrite ui now tf ap c o s
            (if seatTruthy ui.seat_id && !ui.shift_ids.isEmpty then firstShiftIdOf ui.shift_ids
             else none) r
        else r) := rfl

/-- C4: in every successful update, a monetary field supplied as
`undefined`, `null` or the empty string resolves to the previously stored
value, so the updated student row retains exactly the stored
`total_fee`/`amount_paid`/`cash`/`online`/`security_money`. -/
theorem update_blank_money_preserved (db : DB) (id : Nat) (ui : UpdateInput) (now : ℚ)
    (code : Nat) (st : StudentRow) (cur : StudentRow)
    (hfind : db.students.find? (fun r => r.id == id) = some cur)
    (h : (updateStudent db id ui now).resp = Resp.ok code st) :
    st ∈ (updateStudent db id ui now).db.students ∧
    (specified ui.total_fee = false → st.total_fee = cur.total_fee) ∧
    (specified ui.amount_paid = false → st.amount_paid = cur.amount_paid) ∧
    (specified ui.cash = false → st.cash = cur.cash) ∧
    (specified ui.online = false → st.online = cur.online) ∧
    (specified ui.security_money = false → st.security_money = cur.security_money) := by
  unfold updateStudent at h ⊢
  cases e : updateDecide db id ui with
  | fail code' msg mid =>
    rw [e] at h
    exact absurd h (by simp [txnFail])
  | ok cur' tf ap c o s hl mid =>
    rw [e] at h
    obtain ⟨hfind', htf, -, hap, -, hcv, -, hov, -, hsv, -, -⟩ := updateDecide_ok_inv e
    rw [hfind] at hfind'
    obtain rfl := Option.some.inj hfind'
    have h' : Resp.ok 200 (updRowFn ui now tf ap c o s cur) = Resp.ok code st := h
    cases h'
    refine ⟨?_, fun hsp => ?_, fun hsp => ?_, fun hsp => ?_, fun hsp => ?_, fun hsp => ?_⟩
    · show updRowFn ui now tf ap c o s cur ∈ (updFinalDb db id ui now tf ap c o s hl).students
      rw [updFinalDb_students]
      refine List.mem_map.mpr ⟨cur, List.mem_of_find?_eq_some hfind, ?_⟩
      rw [if_pos (List.find?_some hfind)]
    · show tf = cur.total_fee
      have hv : updTotalFee ui cur = some cur.total_fee := by
        unfold updTotalFee
        rw [hsp]
        simp [parseFloat_jsOr_num_zero]
      rw [hv] at htf
      exact (Option.some.inj htf).symm
    · show ap = cur.amount_paid
      have hv : updAmountPaid ui cur = some cur.amount_paid := by
        unfold updAmountPaid
        rw [hsp]
        simp [parseFloat_jsOr_num_zero]
      rw [hv] at hap
      exact (Option.some.inj hap).symm
    · show c = cur.cash
      have hv : updCash ui cur = some cur.cash := by
        unfold updCash
        rw [hsp]
        simp [parseFloat_jsOr_num_zero]
      rw [hv] at hcv
      exact (Option.some.inj hcv).symm
    · show o = cur.online
      have hv : updOnline ui cur = some cur.online := by
        unfold updOnline
        rw [hsp]
        simp [parseFloat_jsOr_num_zero]
      rw [hv] at hov
      exact (Option.some.inj hov).symm
    · show s = cur.security_money
      have hv : updSecurity ui cur = some cur.security_money := by
        unfold updSecurity
        rw [hsp]
        simp [parseFloat_jsOr_num_zero]
      rw [hv] at hsv
      exact (Option.some.inj hsv).symm

/-- The concrete blank-monetary update succeeds and resolves every
monetary column to the stored values of `sampleStudent`. -/
theorem updC4_resp :
    (updateStudent dbA 1 uiGood 5).resp =
      Resp.ok 200 (updRowFn uiGood 5 500 200 200 0 100 sampleStudent) := by
  norm_num [updateStudent, updateDecide, updateSeatDecide, updateDecideTail, dbA, uiGood,
    sampleStudent, sampleHistory, updTotalFee, updAmountPaid, updCash, updOnline,
    updSecurity, specified, parseFloat, jsOr, truthy, seatTruthy, strFalsy, intTruthy,
    latestHistoryRow, List.find?, List.filter, checkLoopTrace, txnOk,
    (by decide : ¬("Asha" = "")), (by decide : ¬("asha@example.com" = "")),
    (by decide : ¬("123" = "")), (by decide : ¬("Street 1" = ""))]

/-- C4 witness: updating `sampleStudent` with every monetary field blank
keeps the stored 500/200/200/0/100 exactly. -/
theorem update_blank_money_preserved_w :
    (updRowFn uiGood 5 500 200 200 0 100 sampleStudent).total_fee = sampleStudent.total_fee ∧
    (updRowFn uiGood 5 500 200 200 0 100 sampleStudent).cash = sampleStudent.cash ∧
    (updRowFn uiGood 5 500 200 200 0 100 sampleStudent).security_money =
      sampleStudent.security_money := by
  have H := update_blank_money_preserved dbA 1 uiGood 5 200
    (updRowFn uiGood 5 500 200 200 0 100 sampleStudent) sampleStudent (by decide) updC4_resp
  exact ⟨H.2.1 (by decide), H.2.2.2.1 (by decide), H.2.2.2.2.2 (by decide)⟩

/-- Filtering for a student id after filtering it away gives nothing. -/
theorem filter_ne_then_eq (l : List SeatAssignment) (id : Nat) :
    ((l.filter (fun a => a.student_id != id)).filter (fun a => a.student_id == id)) = [] := by
  induction l with
  | nil => rfl
  | cons a rest ih =>
    by_cases hx : a.student_id == id
    · simp only [List.filter, bne, hx, Bool.not_true]
      exact ih
    · have hx' : (a.student_id == id) = false := by
        cases hb : (a.student_id == id) with
        | true => exact absurd hb hx
        | false => rfl
      simp only [List.filter, bne, hx', Bool.not_false, hx']
      exact ih

/-- Filtering a freshly inserted assignment block for its own student id
keeps it whole. -/
theorem filter_eq_map_assign (sId id : Nat) (ks : List Nat) :
    ((ks.map (fun k => SeatAssignment.mk sId k id)).filter (fun a => a.student_id == id)) =
      ks.map (fun k => SeatAssignment.mk sId k id) := by
  induction ks with
  | nil => rfl
  | cons k rest ih => simp [List.filter, ih]

/-- Filtering a freshly inserted assignment block for other student ids
gives nothing. -/
theorem filter_ne_map_assign (sId id : Nat) (ks : List Nat) :
    ((ks.map (fun k => SeatAssignment.mk sId k id)).filter (fun a => a.student_id != id)) = [] := by
  induction ks with
  | nil => rfl
  | cons k rest ih => simp [List.filter, ih]

/-- Filtering away a student id is idempotent. -/
theorem filter_ne_idem (l : List SeatAssignment) (id : Nat) :
    ((l.filter (fun a => a.student_id != id)).filter (fun a => a.student_id != id)) =
      l.filter (fun a => a.student_id != id) := by
  induction l with
  | nil => rfl
  | cons a rest ih =>
    by_cases hx : (a.student_id != id) = true
    · simp only [List.filter, hx]
      rw [ih]
    · have hx' : (a.student_id != id) = false := by
        cases hb : (a.student_id != id) with
        | true => exact absurd hb hx
        | false => rfl
      simp only [List.filter, hx']
      exact ih

/-- C7: every successful update deletes all of the student's seat
assignments unconditionally and reinserts one per shift exactly when a
truthy seat and a non-empty shift list were supplied; with an empty
`shift_ids` (or no seat) the student ends with zero assignments.  Other
students' assignments are untouched. -/
theorem update_assignments_full_replace (db : DB) (id : Nat) (ui : UpdateInput) (now : ℚ)
    (code : Nat) (st : StudentRow)
    (h : (updateStudent db id ui now).resp = Resp.ok code st) :
    ((updateStudent db id ui now).db.seat_assignments.filter (fun a => a.student_id == id)) =
      (if seatTruthy ui.seat_id && !ui.shift_ids.isEmpty then
        ui.shift_ids.map (fun k => SeatAssignment.mk (ui.seat_id.getD 0) k id)
      else []) ∧
    ((updateStudent db id ui now).db.seat_assignments.filter (fun a => a.student_id != id)) =
      db.seat_assignments.filter (fun a => a.student_id != id) := by
  unfold updateStudent at h ⊢
  cases e : updateDecide db id ui with
  | fail code' msg mid =>
    rw [e] at h
    exact absurd h (by simp [txnFail])
  | ok cur tf ap c o s hl mid =>
    constructor
    · show ((updFinalDb db id ui now tf ap c o s hl).seat_assignments.filter
        (fun a => a.student_id == id)) = _
      rw [updFinalDb_assignments, List.filter_append, filter_ne_then_eq]
      by_cases hg : (seatTruthy ui.seat_id && !ui.shift_ids.isEmpty) = true
      · rw [if_pos hg]
        rw [filter_eq_map_assign]
        exact List.nil_append _
      · rw [if_neg hg]
        rfl
    · show ((updFinalDb db id ui now tf ap c o s hl).seat_assignments.filter
        (fun a => a.student_id != id)) = _
      rw [updFinalDb_assignments, List.filter_append, filter_ne_idem]
      by_cases hg : (seatTruthy ui.seat_id && !ui.shift_ids.isEmpty) = true
      · rw [if_pos hg, filter_ne_map_assign]
        exact List.append_nil _
      · rw [if_neg hg]
        exact List.append_nil _

/-- The concrete empty-shift update on a student holding an assignment
succeeds. -/
theorem updC7_resp :
    (updateStudent dbC7 1 uiGood 5).resp =
      Resp.ok 200 (updRowFn uiGood 5 500 200 200 0 100 sampleStudent) := by
  norm_num [updateStudent, updateDecide, updateSeatDecide, updateDecideTail, dbC7, dbA,
    uiGood, sampleStudent, sampleHistory, updTotalFee, updAmountPaid, updCash, updOnline,
    updSecurity, specified, parseFloat, jsOr, truthy, seatTruthy, strFalsy, intTruthy,
    latestHistoryRow, List.find?, List.filter, checkLoopTrace, txnOk,
    (by decide : ¬("Asha" = "")), (by decide : ¬("asha@example.com" = "")),
    (by decide : ¬("123" = "")), (by decide : ¬("Street 1" = ""))]

/-- C7 witness: student 1 holds one seat assignment before the update and
zero afterwards, because the update supplied an empty `shift_ids`. -/
theorem update_assignments_full_replace_w :
    dbC7.seat_assignments.filter (fun a => a.student_id == 1) = [SeatAssignment.mk 2 1 1] ∧
    ((updateStudent dbC7 1 uiGood 5).db.seat_assignments.filter
      (fun a => a.student_id == 1)) = [] := by
  refine ⟨by decide, ?_⟩
  have H := (update_assignments_full_replace dbC7 1 uiGood 5 200
    (updRowFn uiGood 5 500 200 200 0 100 sampleStudent) updC7_resp).1
  simpa [uiGood, seatTruthy] using H

/-- C2 (amended): when a truthy seat and a non-empty shift list are
supplied to renew, the only seat/shift validation performed is the
conflict check, with the same different-student exclusion as update: the
request is rejected with the conflict message at the first (seat, shift)
pair assigned to a different student, and when no such pair exists the
renew succeeds — even when the seat or the shifts do not exist, because
renew, unlike update, issues no seat-existence or shift-existence query. -/
theorem renew_conflict_only_validation (db : DB) (id : Nat) (ri : RenewInput) (now : ℚ)
    (old : StudentRow) (f c o s : ℚ)
    (hms : ri.membership_start.isNone = false) (hme : ri.membership_end.isNone = false)
    (hfind : db.students.find? (fun st => st.id == id) = some old)
    (hf : renewFeeValue ri old = some f) (hf0 : 0 ≤ f)
    (hc : renewCashValue ri = some c) (hc0 : 0 ≤ c)
    (ho : renewOnlineValue ri = some o) (ho0 : 0 ≤ o)
    (hs : renewSecurityValue ri old = some s) (hs0 : 0 ≤ s)
    (hguard : (seatTruthy ri.seat_id && !ri.shift_ids.isEmpty) = true) :
    (∀ k, ri.shift_ids.find? (fun j => assignExistsOther db (ri.seat_id.getD 0) j id) = some k →
      (renewStudent db id ri now).resp = Resp.err 400 (conflictMsg k)) ∧
    (ri.shift_ids.find? (fun j => assignExistsOther db (ri.seat_id.getD 0) j id) = none →
      (renewStudent db id ri now).resp = Resp.ok 200 (renewRowFn ri f c o s old)) := by
  constructor
  · intro k hk
    have hconf : (checkLoopTrace (fun j => !assignExistsOther db (ri.seat_id.getD 0) j id)
        SqlTag.selectAssignments ri.shift_ids).2 = some k := by
      rw [checkLoopTrace_snd]
      simpa [Bool.not_not] using hk
    unfold renewStudent renewDecide
    simp [hms, hme, hfind, hf, hc, ho, hs, hguard, hconf, not_lt.mpr hf0, not_lt.mpr hc0,
      not_lt.mpr ho0, not_lt.mpr hs0, bareFail]
  · intro hk
    have hconf : (checkLoopTrace (fun j => !assignExistsOther db (ri.seat_id.getD 0) j id)
        SqlTag.selectAssignments ri.shift_ids).2 = none := by
      rw [checkLoopTrace_snd]
      simpa [Bool.not_not] using hk
    unfold renewStudent renewDecide
    simp [hms, hme, hfind, hf, hc, ho, hs, hguard, hconf, not_lt.mpr hf0, not_lt.mpr hc0,
      not_lt.mpr ho0, not_lt.mpr hs0]

/-- C2 witness: in a database with a student but with no seats and no
schedules, the conflict-free renew naming seat 7 / shift 3 succeeds. -/
theorem renew_conflict_only_validation_w :
    (renewStudent dbC2 1 riC2 35).resp =
      Resp.ok 200 (renewRowFn riC2 600 600 0 100 sampleStudent) :=
  (renew_conflict_only_validation dbC2 1 riC2 35 sampleStudent 600 600 0 100
    (by decide) (by decide) (by decide)
    (by decide) (by norm_num)
    (by decide) (by norm_num)
    (by decide) (by norm_num)
    (by decide) (by norm_num)
    (by decide)).2 (by decide)

/-- C2 counterexample: a renew naming a seat and a shift that do not
exist succeeds and inserts the dangling assignment — refuting the claim
that renew verifies seat and shift existence the way update does. -/
theorem renew_skips_existence_checks_cex :
    (renewStudent dbC2 1 riC2 35).resp.isOk = true ∧
    dbC2.seats = [] ∧ dbC2.schedules = [] ∧
    riC2.seat_id = some 7 ∧ riC2.shift_ids = [3] ∧
    SeatAssignment.mk 7 3 1 ∈ (renewStudent dbC2 1 riC2 35).db.seat_assignments := by
  decide

/-- C6: a create request passing every other validation but naming a
(seat, shift) pair that already has an assignment is rejected with the
400 conflict message for the first such shift, and the database — the
students, seat_assignments and student_membership_history tables included
— is returned unchanged. -/
theorem create_conflict_atomic_reject (db : DB) (ci : CreateInput) (now : ℚ) (k : Nat)
    (f p c o s : ℚ)
    (hname : strFalsy ci.name = false) (hbr : intTruthy ci.branch_id = true)
    (hms : ci.membership_start.isNone = false) (hme : ci.membership_end.isNone = false)
    (hf : createFeeValue ci = some f) (hf0 : 0 ≤ f)
    (hp : createPaidValue ci = some p) (hp0 : 0 ≤ p)
    (hc : createCashValue ci = some c) (hc0 : 0 ≤ c)
    (ho : createOnlineValue ci = some o) (ho0 : 0 ≤ o)
    (hs : createSecurityValue ci = some s) (hs0 : 0 ≤ s)
    (hguard : (seatTruthy ci.seat_id && !ci.shift_ids.isEmpty) = true)
    (hseat : db.seats.contains (ci.seat_id.getD 0) = true)
    (hsh : ∀ j ∈ ci.shift_ids, db.schedules.contains j = true)
    (hk : ci.shift_ids.find? (fun j => assignExists db (ci.seat_id.getD 0) j) = some k) :
    (createStudent db ci now).resp = Resp.err 400 (conflictMsg k) ∧
    (createStudent db ci now).db = db := by
  have hshift : (checkLoopTrace (fun j => db.schedules.contains j)
      SqlTag.selectSchedules ci.shift_ids).2 = none := by
    rw [checkLoopTrace_snd]
    rw [List.find?_eq_none]
    intro x hx
    simp only [hsh x hx, Bool.not_true]
    decide
  have hconf : (checkLoopTrace (fun j => !assignExists db (ci.seat_id.getD 0) j)
      SqlTag.selectAssignments ci.shift_ids).2 = some k := by
    rw [checkLoopTrace_snd]
    simpa [Bool.not_not] using hk
  unfold createStudent createDecide createSeatDecide
  simp only [hname, hbr, hms, hme, hf, hp, hc, ho, hs, hguard, hseat, hshift, hconf,
    Bool.not_true, Bool.or_self, Bool.or_false, Bool.false_or, Bool.false_eq_true,
    not_lt.mpr hf0, not_lt.mpr hp0, not_lt.mpr hc0, not_lt.mpr ho0, not_lt.mpr hs0,
    if_false, if_true, ite_false, ite_true, txnFail]
  constructor <;> first | rfl | trivial

/-- C6 witness: with seat 1 / shift 1 already assigned to student 1, the
otherwise valid create naming that pair is rejected with the conflict
message for shift 1 and leaves the database exactly as it was. -/
theorem create_conflict_atomic_reject_w :
    (createStudent dbC6 ciC6 5).resp = Resp.err 400 (conflictMsg 1) ∧
    (createStudent dbC6 ciC6 5).db = dbC6 :=
  create_conflict_atomic_reject dbC6 ciC6 5 1 100 0 0 0 0
    (by decide) (by decide) (by decide) (by decide)
    (by decide) (by norm_num)
    (by decide) (by norm_num)
    (by decide) (by norm_num)
    (by decide) (by norm_num)
    (by decide) (by norm_num)
    (by decide) (by decide) (by decide) (by decide)

/-- C8: an update that passes every validation fails with the 404
no-history response exactly when the student has no membership-history
row; otherwise it succeeds and overwrites, in place, precisely the
history row with the greatest `changed_at` (the `ORDER BY changed_at DESC
LIMIT 1` row), leaving every other history row unchanged and appending
nothing. -/
theorem update_history_overwrite_or_404 (db : DB) (id : Nat) (ui : UpdateInput) (now : ℚ)
    (cur : StudentRow) (tf ap c o s : ℚ)
    (hname : strFalsy ui.name = false) (hemail : strFalsy ui.email = false)
    (hphone : strFalsy ui.phone = false) (haddr : strFalsy ui.address = false)
    (hbr : intTruthy ui.branch_id = true)
    (hms : ui.membership_start.isNone = false) (hme : ui.membership_end.isNone = false)
    (hfind : db.students.find? (fun st => st.id == id) = some cur)
    (htf : updTotalFee ui cur = some tf) (htf0 : 0 ≤ tf)
    (hap : updAmountPaid ui cur = some ap) (hap0 : 0 ≤ ap)
    (hcv : updCash ui cur = some c) (hc0 : 0 ≤ c)
    (hov : updOnline ui cur = some o) (ho0 : 0 ≤ o)
    (hsv : updSecurity ui cur = some s) (hs0 : 0 ≤ s)
    (hss : (seatTruthy ui.seat_id && !ui.shift_ids.isEmpty) = true →
      db.seats.contains (ui.seat_id.getD 0) = true ∧
      (∀ j ∈ ui.shift_ids, db.schedules.contains j = true) ∧
      (∀ j ∈ ui.shift_ids, assignExistsOther db (ui.seat_id.getD 0) j id = false)) :
    ((updateStudent db id ui now).resp = Resp.err 404 noHistoryMsg ↔
      db.history.filter (fun r => r.student_id == id) = []) ∧
    (∀ hl, latestHistoryRow (db.history.filter (fun r => r.student_id == id)) = some hl →
      (updateStudent db id ui now).resp = Resp.ok 200 (updRowFn ui now tf ap c o s cur) ∧
      (updateStudent db id ui now).db.history =
        db.history.map (fun r =>
          if r.id == hl.id then
            updHistOverwrite ui now tf ap c o s
              (if seatTruthy ui.seat_id && !ui.shift_ids.isEmpty then firstShiftIdOf ui.shift_ids
               else none) r
          else r)) := by
  have hne : (db.students.filter (fun st => st.id == id)).isEmpty = false := by
    have hmemf : cur ∈ db.students.filter (fun st => st.id == id) :=
      List.mem_filter.mpr ⟨List.mem_of_find?_eq_some hfind, by
        have hp := List.find?_some hfind
        exact hp⟩
    cases hE : (db.students.filter (fun st => st.id == id)).isEmpty with
    | false => rfl
    | true =>
      rw [List.isEmpty_iff] at hE
      rw [hE] at hmemf
      cases hmemf
  have hmain : ∀ pre, updateDecide db id ui = updateDecideTail db id ui cur tf ap c o s pre →
      ((updateStudent db id ui now).resp = Resp.err 404 noHistoryMsg ↔
        db.history.filter (fun r => r.student_id == id) = []) ∧
      (∀ hl, latestHistoryRow (db.history.filter (fun r => r.student_id == id)) = some hl →
        (updateStudent db id ui now).resp = Resp.ok 200 (updRowFn ui now tf ap c o s cur) ∧
        (updateStudent db id ui now).db.history =
          db.history.map (fun r =>
            if r.id == hl.id then
              updHistOverwrite ui now tf ap c o s
                (if seatTruthy ui.seat_id && !ui.shift_ids.isEmpty then
                  firstShiftIdOf ui.shift_ids
                 else none) r
            else r)) := by
    intro pre hd
    unfold updateStudent
    rw [hd]
    cases hlat : latestHistoryRow (db.history.filter (fun r => r.student_id == id)) with
    | none =>
      have hdt : updateDecideTail db id ui cur tf ap c o s pre =
          UpdOutcome.fail 404 noHistoryMsg
            (pre ++ [DbCall.query SqlTag.updateStudents] ++ updAssignTrace ui ++
              [DbCall.query SqlTag.selectHistory]) := by
        unfold updateDecideTail
        simp only [hne, hlat, Bool.false_eq_true, if_false, ite_false]
      rw [hdt]
      constructor
      · constructor
        · intro _
          exact (latestHistoryRow_eq_none _).mp hlat
        · intro _
          rfl
      · intro hl hsome
        exact absurd hsome (by simp)
    | some hl0 =>
      have hdt : updateDecideTail db id ui cur tf ap c o s pre =
          UpdOutcome.ok cur tf ap c o s hl0
            (pre ++ [DbCall.query SqlTag.updateStudents] ++ updAssignTrace ui ++
              [DbCall.query SqlTag.selectHistory] ++ [DbCall.query SqlTag.updateHistory]) := by
        unfold updateDecideTail
        simp only [hne, hlat, Bool.false_eq_true, if_false, ite_false]
      rw [hdt]
      constructor
      · constructor
        · intro habs
          exact absurd habs (by simp [txnOk])
        · intro hnil
          rw [hnil] at hlat
          exact absurd hlat (by simp [latestHistoryRow])
      · intro hl hsome
        obtain rfl := Option.some.inj hsome
        constructor
        · rfl
        · show (updFinalDb db id ui now tf ap c o s hl0).history = _
          rw [updFinalDb_history]
  by_cases hg : (seatTruthy ui.seat_id && !ui.shift_ids.isEmpty) = true
  · obtain ⟨h1, h2, h3⟩ := hss hg
    have hshift : (checkLoopTrace (fun j => db.schedules.contains j)
        SqlTag.selectSchedules ui.shift_ids).2 = none := by
      rw [checkLoopTrace_snd, List.find?_eq_none]
      intro x hx
      simp only [h2 x hx, Bool.not_true]
      decide
    have hconf : (checkLoopTrace (fun j => !assignExistsOther db (ui.seat_id.getD 0) j id)
        SqlTag.selectAssignments ui.shift_ids).2 = none := by
      rw [checkLoopTrace_snd, List.find?_eq_none]
      intro x hx
      simp only [h3 x hx, Bool.not_false, Bool.not_true]
      decide
    refine hmain ([DbCall.query SqlTag.selectStudents] ++ DbCall.query SqlTag.selectSeats ::
      ((checkLoopTrace (fun k => db.schedules.contains k)
          SqlTag.selectSchedules ui.shift_ids).1 ++
        (checkLoopTrace (fun k => !assignExistsOther db (ui.seat_id.getD 0) k id)
          SqlTag.selectAssignments ui.shift_ids).1)) ?_
    unfold updateDecide updateSeatDecide
    simp only [hname, hemail, hphone, haddr, hbr, hms, hme, hfind, htf, hap, hcv, hov, hsv,
      hg, h1, hshift, hconf, Bool.not_true, Bool.or_self, Bool.or_false, Bool.false_or,
      Bool.false_eq_true, not_lt.mpr htf0, not_lt.mpr hap0, not_lt.mpr hc0, not_lt.mpr ho0,
      not_lt.mpr hs0, if_false, if_true, ite_false, ite_true]
  · refine hmain [DbCall.query SqlTag.selectStudents] ?_
    unfold updateDecide updateSeatDecide
    simp only [hname, hemail, hphone, haddr, hbr, hms, hme, hfind, htf, hap, hcv, hov, hsv,
      hg, Bool.not_true, Bool.or_self, Bool.or_false, Bool.false_or,
      Bool.false_eq_true, not_lt.mpr htf0, not_lt.mpr hap0, not_lt.mpr hc0, not_lt.mpr ho0,
      not_lt.mpr hs0, if_false, if_true, ite_false, ite_true]

/-- C8 witness: `sampleStudent` has one history row, so the valid update
succeeds (no 404), and the 404 condition is equivalent to the student
having no history rows. -/
theorem update_history_overwrite_or_404_w :
    (updateStudent dbA 1 uiGood 5).resp =
      Resp.ok 200 (updRowFn uiGood 5 500 200 200 0 100 sampleStudent) ∧
    ((updateStudent dbA 1 uiGood 5).resp = Resp.err 404 noHistoryMsg ↔
      dbA.history.filter (fun r => r.student_id == 1) = []) := by
  have H := update_history_overwrite_or_404 dbA 1 uiGood 5 sampleStudent 500 200 200 0 100
    (by decide) (by decide) (by decide) (by decide) (by decide) (by decide) (by decide)
    (by decide)
    (by decide) (by norm_num)
    (by decide) (by norm_num)
    (by decide) (by norm_num)
    (by decide) (by norm_num)
    (by decide) (by norm_num)
    (fun hg => absurd hg (by decide))
  exact ⟨(H.2 sampleHistory (by decide)).1, H.1⟩

end DemoLib
